import Mathlib

/-!
Shallow embedding of the ClusterProbe scripts (cluster_sanity_check.py and
cluster_sanity_check_no-nmr.py): neighbor counting around Xenon atoms,
anomaly classification, aggregate percentages, and the quarantine mover.

Coordinates are modelled as rationals.  The float comparison
`dist <= rcut` of the source, with `dist = np.linalg.norm(pos - xe_pos)`,
is modelled as the exact real comparison `Real.sqrt d2 ≤ rcut`; it is
decided by the equivalent rational test `0 ≤ rcut ∧ d2 ≤ rcut * rcut`
(lemma `withinCutoff_iff_sqrt`).
-/

/-- One atom of a structure: a chemical symbol (an entry of
`atoms.get_chemical_symbols()`) together with its 3D coordinates
(the corresponding row of `atoms.positions`). -/
structure Atom where
  symbol : String
  x : ℚ
  y : ℚ
  z : ℚ
  deriving Repr, DecidableEq, Inhabited

/-- Squared Euclidean distance between two atoms: the square of
`np.linalg.norm(pos - xe_pos)` (plain straight-line norm, no periodic
wrapping anywhere in the source). -/
def dist2 (a b : Atom) : ℚ :=
  (a.x - b.x) * (a.x - b.x) + (a.y - b.y) * (a.y - b.y) + (a.z - b.z) * (a.z - b.z)

/-- The source's test `dist <= rcut` where `dist = np.linalg.norm(pos - xe_pos)`.
Since `dist = Real.sqrt (dist2 a b)` and a square root is nonnegative, the test
is equivalent to the decidable rational test used here; the equivalence with the
literal Euclidean-distance comparison is `withinCutoff_iff_sqrt`. -/
def withinCutoff (a b : Atom) (rcut : ℚ) : Bool :=
  decide (0 ≤ rcut ∧ dist2 a b ≤ rcut * rcut)

/-- Indices of the target (Xe) atoms:
`xe_indices = [i for i, symbol in enumerate(atoms.get_chemical_symbols()) if symbol == 'Xe']`. -/
def xeIndices (atoms : List Atom) : List Nat :=
  (List.range atoms.length).filter (fun i => decide ((atoms.getD i default).symbol = "Xe"))

/-- The neighbor test of the inner loop
`for i, pos in enumerate(atoms.positions): if i != xe_idx: dist = ...; if dist <= rcut`. -/
def isNeighbor (atoms : List Atom) (xeIdx i : Nat) (rcut : ℚ) : Bool :=
  decide (i ≠ xeIdx) && withinCutoff (atoms.getD i default) (atoms.getD xeIdx default) rcut

/-- The list `neighbor_indices` accumulated for the target atom at index `xeIdx`. -/
def neighborIndices (atoms : List Atom) (xeIdx : Nat) (rcut : ℚ) : List Nat :=
  (List.range atoms.length).filter (fun i => isNeighbor atoms xeIdx i rcut)

/-- `neighbor_count = len(distances)` for the target atom at index `xeIdx`:
the number of other atoms within the cutoff radius. -/
def neighborCount (atoms : List Atom) (xeIdx : Nat) (rcut : ℚ) : Nat :=
  (neighborIndices atoms xeIdx rcut).length

/-- The result dictionary built by both analysis functions.  The identifier key
(`file` in directory mode, `snapshot` in trajectory mode) is the only key that
differs between the two scripts and is kept outside this record. -/
structure StructureResult where
  success : Bool
  error : Option String
  n_atoms : Nat
  n_xe : Nat
  xe_neighbors : List Nat
  is_anomalous : Bool
  deriving Repr, DecidableEq

/-- `analyze_cluster(xyz_file, rcut, min_neighbors)` of cluster_sanity_check.py.
The `Except` input is the outcome of `read(xyz_file)` inside the `try` block:
`.error e` is a raised exception with message `e` (caught by the surrounding
`except` which returns the failed dictionary), `.ok atoms` a loaded structure. -/
def analyze_cluster (loaded : Except String (List Atom)) (rcut : ℚ) (min_neighbors : ℤ) :
    StructureResult :=
  match loaded with
  | .error e =>
      { success := false, error := some e, n_atoms := 0, n_xe := 0,
        xe_neighbors := [], is_anomalous := true }
  | .ok atoms =>
      let xe_indices := xeIndices atoms
      if xe_indices.length = 0 then
        { success := false, error := some "No Xenon atoms found", n_atoms := atoms.length,
          n_xe := 0, xe_neighbors := [], is_anomalous := true }
      else
        let xe_neighbor_counts := xe_indices.map (fun t => neighborCount atoms t rcut)
        { success := true, error := none, n_atoms := atoms.length, n_xe := xe_indices.length,
          xe_neighbors := xe_neighbor_counts,
          is_anomalous := xe_neighbor_counts.any (fun c => decide ((c : ℤ) < min_neighbors)) }

/-- `analyze_snapshot(atoms, snapshot_idx, rcut, min_neighbors)` of
cluster_sanity_check_no-nmr.py, transcribed from its own body.  The `Except`
input is the outcome of accessing the snapshot's data inside the `try` block
(`.error e` an exception caught by the `except` branch, `.ok atoms` the
snapshot's atoms). -/
def analyze_snapshot (loaded : Except String (List Atom)) (rcut : ℚ) (min_neighbors : ℤ) :
    StructureResult :=
  match loaded with
  | .error e =>
      { success := false, error := some e, n_atoms := 0, n_xe := 0,
        xe_neighbors := [], is_anomalous := true }
  | .ok atoms =>
      let xe_indices := xeIndices atoms
      if xe_indices.length = 0 then
        { success := false, error := some "No Xenon atoms found", n_atoms := atoms.length,
          n_xe := 0, xe_neighbors := [], is_anomalous := true }
      else
        let xe_neighbor_counts := xe_indices.map (fun t => neighborCount atoms t rcut)
        { success := true, error := none, n_atoms := atoms.length, n_xe := xe_indices.length,
          xe_neighbors := xe_neighbor_counts,
          is_anomalous := xe_neighbor_counts.any (fun c => decide ((c : ℤ) < min_neighbors)) }

/-- The analysis loop of `main`:
`for cluster_file in ...: results.append(analyze_cluster(cluster_file, rcut, num_atoms))`. -/
def runAnalyses (inputs : List (Except String (List Atom))) (rcut : ℚ) (min_neighbors : ℤ) :
    List StructureResult :=
  inputs.map (fun l => analyze_cluster l rcut min_neighbors)

lemma dist2_nonneg (a b : Atom) : 0 ≤ dist2 a b := by
  have h1 := mul_self_nonneg (a.x - b.x)
  have h2 := mul_self_nonneg (a.y - b.y)
  have h3 := mul_self_nonneg (a.z - b.z)
  unfold dist2
  linarith

lemma withinCutoff_iff_sqrt (a b : Atom) (rcut : ℚ) :
    withinCutoff a b rcut = true ↔ Real.sqrt ((dist2 a b : ℚ) : ℝ) ≤ ((rcut : ℚ) : ℝ) := by
  rw [withinCutoff, decide_eq_true_iff, Real.sqrt_le_iff]
  constructor
  · rintro ⟨h0, hle⟩
    refine ⟨by exact_mod_cast h0, ?_⟩
    rw [sq]
    exact_mod_cast hle
  · rintro ⟨h0, hle⟩
    rw [sq] at hle
    exact ⟨by exact_mod_cast h0, by exact_mod_cast hle⟩

lemma withinCutoff_mono (a b : Atom) {r r' : ℚ} (hrr : r ≤ r')
    (h : withinCutoff a b r = true) : withinCutoff a b r' = true := by
  rw [withinCutoff, decide_eq_true_iff] at h ⊢
  obtain ⟨h0, hle⟩ := h
  refine ⟨le_trans h0 hrr, le_trans hle ?_⟩
  exact mul_le_mul hrr hrr h0 (le_trans h0 hrr)

lemma isNeighbor_mono (atoms : List Atom) (t i : Nat) {r r' : ℚ} (hrr : r ≤ r')
    (h : isNeighbor atoms t i r = true) : isNeighbor atoms t i r' = true := by
  rw [isNeighbor, Bool.and_eq_true] at h ⊢
  exact ⟨h.1, withinCutoff_mono _ _ hrr h.2⟩

/-- C2: an atom index `i` is counted as a neighbor of the target atom at index `t`
iff `i` is a valid index distinct from `t` and the plain 3D Euclidean distance from
atom `i` to atom `t` is at most the cutoff radius (inclusive boundary).  The self
index is excluded unconditionally, and a distinct atom at distance 0 satisfies the
right-hand side whenever `0 ≤ r`, so it is counted. -/
theorem neighbor_iff_euclidean_le_rcut (atoms : List Atom) (t : Nat)
    (ht : t < atoms.length) (r : ℚ) (i : Nat) :
    i ∈ neighborIndices atoms t r ↔
      ∃ hi : i < atoms.length, i ≠ t ∧
        Real.sqrt ((dist2 atoms[i] atoms[t] : ℚ) : ℝ) ≤ ((r : ℚ) : ℝ) := by
  unfold neighborIndices
  rw [List.mem_filter, List.mem_range]
  constructor
  · rintro ⟨hi, hn⟩
    rw [isNeighbor, Bool.and_eq_true, decide_eq_true_iff] at hn
    obtain ⟨hne, hw⟩ := hn
    refine ⟨hi, hne, ?_⟩
    rw [← withinCutoff_iff_sqrt]
    simpa [List.getD_eq_getElem?_getD, List.getElem?_eq_getElem, hi, ht] using hw
  · rintro ⟨hi, hne, hw⟩
    refine ⟨hi, ?_⟩
    rw [isNeighbor, Bool.and_eq_true, decide_eq_true_iff]
    refine ⟨hne, ?_⟩
    rw [← withinCutoff_iff_sqrt] at hw
    simpa [List.getD_eq_getElem?_getD, List.getElem?_eq_getElem, hi, ht] using hw

/-- C2 witness: in a two-atom structure whose second atom duplicates the position
of the Xe atom at index 0, index 1 is a counted neighbor at radius 0, so a valid
distinct index at Euclidean distance 0 from the target exists. -/
theorem neighbor_iff_euclidean_le_rcut_witness :
    ∃ hi : 1 < ([⟨"Xe", 0, 0, 0⟩, ⟨"O", 0, 0, 0⟩] : List Atom).length, 1 ≠ 0 ∧
      Real.sqrt ((dist2 ([⟨"Xe", 0, 0, 0⟩, ⟨"O", 0, 0, 0⟩] : List Atom)[1]
        ([⟨"Xe", 0, 0, 0⟩, ⟨"O", 0, 0, 0⟩] : List Atom)[0] : ℚ) : ℝ) ≤ ((0 : ℚ) : ℝ) :=
  (neighbor_iff_euclidean_le_rcut [⟨"Xe", 0, 0, 0⟩, ⟨"O", 0, 0, 0⟩] 0 (by decide) 0 1).mp
    (by norm_num [neighborIndices, isNeighbor, withinCutoff, dist2, List.range_succ])

/-- C3: for cutoff radii `r ≤ r'`, the neighbor set of every target atom computed at
`r` is a subset of the one computed at `r'`, and the neighbor count at `r` is at most
the neighbor count at `r'`. -/
theorem neighborCount_monotone_in_rcut (atoms : List Atom) (t : Nat) (r r' : ℚ)
    (h : r ≤ r') :
    neighborIndices atoms t r ⊆ neighborIndices atoms t r' ∧
      neighborCount atoms t r ≤ neighborCount atoms t r' := by
  constructor
  · intro x hx
    unfold neighborIndices at hx ⊢
    rw [List.mem_filter] at hx ⊢
    exact ⟨hx.1, isNeighbor_mono atoms t x h hx.2⟩
  · exact (List.monotone_filter_right _ (fun i hi => isNeighbor_mono atoms t i h hi)).length_le

/-- C3 witness: at radii 2 ≤ 3 on a concrete two-atom structure the subset and
count inequalities hold. -/
theorem neighborCount_monotone_in_rcut_witness :
    neighborIndices [⟨"Xe", 0, 0, 0⟩, ⟨"O", 3, 0, 0⟩] 0 2 ⊆
        neighborIndices [⟨"Xe", 0, 0, 0⟩, ⟨"O", 3, 0, 0⟩] 0 3 ∧
      neighborCount [⟨"Xe", 0, 0, 0⟩, ⟨"O", 3, 0, 0⟩] 0 2 ≤
        neighborCount [⟨"Xe", 0, 0, 0⟩, ⟨"O", 3, 0, 0⟩] 0 3 :=
  neighborCount_monotone_in_rcut [⟨"Xe", 0, 0, 0⟩, ⟨"O", 3, 0, 0⟩] 0 2 3 (by norm_num)

lemma foldl_min_cast_lt (m : ℤ) :
    ∀ (l : List Nat) (a : Nat),
      ((l.foldl min a : Nat) : ℤ) < m ↔ ((a : ℤ) < m ∨ ∃ c ∈ l, (c : ℤ) < m)
  | [], a => by simp
  | b :: l, a => by
    rw [List.foldl_cons, foldl_min_cast_lt m l (min a b)]
    simp only [Nat.cast_min, min_lt_iff, List.mem_cons]
    constructor
    · rintro (⟨h | h⟩ | ⟨c, hc, hlt⟩)
      · exact Or.inl h
      · exact Or.inr ⟨b, Or.inl rfl, h⟩
      · exact Or.inr ⟨c, Or.inr hc, hlt⟩
    · rintro (h | ⟨c, rfl | hc, hlt⟩)
      · exact Or.inl (Or.inl h)
      · exact Or.inl (Or.inr hlt)
      · exact Or.inr ⟨c, hc, hlt⟩

lemma min?_cast_lt_iff (l : List Nat) (m : ℤ) :
    (∃ v, l.min? = some v ∧ ((v : ℕ) : ℤ) < m) ↔ ∃ c ∈ l, (c : ℤ) < m := by
  cases l with
  | nil => simp [List.min?_nil]
  | cons a l =>
    rw [List.min?_cons']
    constructor
    · rintro ⟨v, hv, hlt⟩
      rw [Option.some_inj] at hv
      rw [← hv] at hlt
      rcases (foldl_min_cast_lt m l a).mp hlt with h | ⟨c, hc, h⟩
      · exact ⟨a, List.mem_cons_self a l, h⟩
      · exact ⟨c, List.mem_cons_of_mem a hc, h⟩
    · rintro ⟨c, hc, hlt⟩
      refine ⟨l.foldl min a, rfl, ?_⟩
      rw [foldl_min_cast_lt m l a]
      rcases List.mem_cons.mp hc with rfl | hc
      · exact Or.inl hlt
      · exact Or.inr ⟨c, hc, hlt⟩

/-- C1: a structure's anomaly flag is true iff the target-atom count is 0, or the
minimum neighbor count across its target atoms is strictly less than the configured
minimum (a count exactly equal to the minimum is not anomalous, since the comparison
is strict), or a load/compute error occurred (success is false). -/
theorem is_anomalous_iff (loaded : Except String (List Atom)) (rcut : ℚ)
    (min_neighbors : ℤ) :
    (analyze_cluster loaded rcut min_neighbors).is_anomalous = true ↔
      ((analyze_cluster loaded rcut min_neighbors).success = false ∨
        (analyze_cluster loaded rcut min_neighbors).n_xe = 0 ∨
        ∃ v, (analyze_cluster loaded rcut min_neighbors).xe_neighbors.min? = some v ∧
          (v : ℤ) < min_neighbors) := by
  cases loaded with
  | error e => simp [analyze_cluster]
  | ok atoms =>
    by_cases h : (xeIndices atoms).length = 0
    · simp [analyze_cluster, h]
    · simp only [analyze_cluster, h, if_false]
      rw [min?_cast_lt_iff]
      simp [List.any_eq_true, h]

/-- C4: the directory-mode analysis (analyze_cluster) and the trajectory-mode
analysis (analyze_snapshot), run with the same cutoff radius and minimum-neighbor
threshold on the same loaded structure, produce the same success flag, atom count,
target-atom count, per-target neighbor-count sequence, and anomaly flag. -/
theorem analyze_cluster_eq_analyze_snapshot (loaded : Except String (List Atom))
    (rcut : ℚ) (min_neighbors : ℤ) :
    (analyze_cluster loaded rcut min_neighbors).success =
        (analyze_snapshot loaded rcut min_neighbors).success ∧
      (analyze_cluster loaded rcut min_neighbors).n_atoms =
        (analyze_snapshot loaded rcut min_neighbors).n_atoms ∧
      (analyze_cluster loaded rcut min_neighbors).n_xe =
        (analyze_snapshot loaded rcut min_neighbors).n_xe ∧
      (analyze_cluster loaded rcut min_neighbors).xe_neighbors =
        (analyze_snapshot loaded rcut min_neighbors).xe_neighbors ∧
      (analyze_cluster loaded rcut min_neighbors).is_anomalous =
        (analyze_snapshot loaded rcut min_neighbors).is_anomalous :=
  ⟨rfl, rfl, rfl, rfl, rfl⟩

/-- C5: an unexpected load/compute failure is converted into a failed
StructureResult — success false, the failure message as the error, anomaly flag
true, empty neighbor-count list — instead of propagating, and in the analysis loop
the remaining structures' results are unchanged. -/
theorem error_converted_and_run_continues (e : String) (rcut : ℚ) (min_neighbors : ℤ)
    (pre post : List (Except String (List Atom))) :
    analyze_cluster (.error e) rcut min_neighbors =
        { success := false, error := some e, n_atoms := 0, n_xe := 0,
          xe_neighbors := [], is_anomalous := true } ∧
      runAnalyses (pre ++ .error e :: post) rcut min_neighbors =
        runAnalyses pre rcut min_neighbors ++
          analyze_cluster (.error e) rcut min_neighbors ::
            runAnalyses post rcut min_neighbors := by
  refine ⟨rfl, ?_⟩
  unfold runAnalyses
  simp

lemma xeIndices_eq_nil (atoms : List Atom) (h : ∀ a ∈ atoms, a.symbol ≠ "Xe") :
    xeIndices atoms = [] := by
  unfold xeIndices
  rw [List.filter_eq_nil_iff]
  intro i hi
  rw [List.mem_range] at hi
  rw [List.getD_eq_getElem?_getD, List.getElem?_eq_getElem hi]
  simpa using h _ (atoms.getElem_mem hi)

/-- C6: a structure containing zero atoms of the target species yields a result
with success false, error message "No Xenon atoms found", the structure's actual
atom count, target-atom count 0, an empty neighbor-count list and anomaly flag
true; the analysis loop continues over the remaining structures unchanged. -/
theorem no_xenon_failed_anomalous (atoms : List Atom) (rcut : ℚ) (min_neighbors : ℤ)
    (h : ∀ a ∈ atoms, a.symbol ≠ "Xe")
    (pre post : List (Except String (List Atom))) :
    analyze_cluster (.ok atoms) rcut min_neighbors =
        { success := false, error := some "No Xenon atoms found",
          n_atoms := atoms.length, n_xe := 0, xe_neighbors := [],
          is_anomalous := true } ∧
      runAnalyses (pre ++ .ok atoms :: post) rcut min_neighbors =
        runAnalyses pre rcut min_neighbors ++
          analyze_cluster (.ok atoms) rcut min_neighbors ::
            runAnalyses post rcut min_neighbors := by
  constructor
  · simp [analyze_cluster, xeIndices_eq_nil atoms h]
  · unfold runAnalyses
    simp

/-- C6 witness: a one-atom structure with no Xe atom evaluates to the failed,
anomalous result with the stated error and counts, inside a one-element run. -/
theorem no_xenon_failed_anomalous_witness :
    analyze_cluster (.ok [⟨"O", 0, 0, 0⟩]) 6 10 =
        { success := false, error := some "No Xenon atoms found",
          n_atoms := ([⟨"O", 0, 0, 0⟩] : List Atom).length, n_xe := 0,
          xe_neighbors := [], is_anomalous := true } ∧
      runAnalyses ([] ++ .ok [⟨"O", 0, 0, 0⟩] :: []) 6 10 =
        runAnalyses [] 6 10 ++
          analyze_cluster (.ok [⟨"O", 0, 0, 0⟩]) 6 10 :: runAnalyses [] 6 10 :=
  no_xenon_failed_anomalous [⟨"O", 0, 0, 0⟩] 6 10 (by decide) [] []

/-- The quality-assessment block of print_summary_statistics:
`good_results = [r for r in results if r['success']]` (early return, reporting no
percentages, when it is empty), `anomalous_results = [r for r in good_results if
r['is_anomalous']]`, `good_clusters = len(good_results) - len(anomalous_results)`,
and the two reported percentages `100*good_clusters/len(good_results)` and
`100*len(anomalous_results)/len(good_results)`, as exact rationals. -/
def qualityPercentages (results : List StructureResult) : Option (ℚ × ℚ) :=
  let good_results := results.filter (fun r => r.success)
  if good_results.length = 0 then none
  else
    let anomalous_results := good_results.filter (fun r => r.is_anomalous)
    let good_clusters := good_results.length - anomalous_results.length
    some (100 * (good_clusters : ℚ) / (good_results.length : ℚ),
          100 * (anomalous_results.length : ℚ) / (good_results.length : ℚ))

/-- C9: with at least one successful structure, the reported good-cluster and
anomalous-cluster percentages (taken over successful structures) sum to exactly
100; with zero successful structures the percentages are omitted. -/
theorem percentages_sum_to_100 (results : List StructureResult) :
    ((∃ r ∈ results, r.success = true) →
      ∃ g a, qualityPercentages results = some (g, a) ∧ g + a = 100) ∧
    ((¬ ∃ r ∈ results, r.success = true) → qualityPercentages results = none) := by
  constructor
  · rintro ⟨r, hr, hs⟩
    have hmem : r ∈ results.filter (fun r => r.success) :=
      List.mem_filter.mpr ⟨hr, by simp [hs]⟩
    have hlen : (results.filter (fun r => r.success)).length ≠ 0 := by
      intro h0
      rw [List.length_eq_zero] at h0
      rw [h0] at hmem
      exact absurd hmem (List.not_mem_nil r)
    have hle : ((results.filter (fun r => r.success)).filter
        (fun r => r.is_anomalous)).length ≤ (results.filter (fun r => r.success)).length :=
      List.length_filter_le _ _
    have hcast : ((results.filter (fun r => r.success)).length : ℚ) ≠ 0 := by
      exact_mod_cast hlen
    simp only [qualityPercentages, if_neg hlen]
    refine ⟨_, _, rfl, ?_⟩
    rw [Nat.cast_sub hle]
    field_simp
    ring
  · intro hno
    have hnil : results.filter (fun r => r.success) = [] := by
      rw [List.filter_eq_nil_iff]
      intro r hr
      simp only [Bool.not_eq_true]
      rcases Bool.eq_false_or_eq_true r.success with h | h
      · exact absurd ⟨r, hr, h⟩ hno
      · exact h
    simp [qualityPercentages, hnil]

/-- A concrete successful, non-anomalous result record, as built by the analysis
of a healthy cluster (Scenario A of the spec: one Xe atom with 12 neighbors). -/
def goodResult : StructureResult :=
  { success := true, error := none, n_atoms := 13, n_xe := 1,
    xe_neighbors := [12], is_anomalous := false }

/-- C9 witness: a one-element run containing a successful result reports
percentages that sum to exactly 100. -/
theorem percentages_sum_to_100_witness :
    ∃ g a, qualityPercentages [goodResult] = some (g, a) ∧ g + a = 100 :=
  (percentages_sum_to_100 [goodResult]).1 ⟨goodResult, List.mem_singleton_self _, rfl⟩

/-- A one-Xe-atom structure: the minimal structure on which the analysis succeeds. -/
def xeOnly : List Atom := [⟨"Xe", 0, 0, 0⟩]

/-- C10: a successful result's neighbor-count list has length equal to the reported
target-atom count, that count is at least 1, and the list is the map of the
per-target neighbor count over the strictly increasing list of target-atom indices
(so its entries are ordered by ascending target-atom index); a failed result has an
empty neighbor-count list and anomaly flag true. -/
theorem result_invariants (loaded : Except String (List Atom)) (rcut : ℚ)
    (min_neighbors : ℤ) :
    ((analyze_cluster loaded rcut min_neighbors).success = true →
      ∃ atoms, loaded = .ok atoms ∧
        (analyze_cluster loaded rcut min_neighbors).xe_neighbors.length =
          (analyze_cluster loaded rcut min_neighbors).n_xe ∧
        1 ≤ (analyze_cluster loaded rcut min_neighbors).n_xe ∧
        (analyze_cluster loaded rcut min_neighbors).xe_neighbors =
          (xeIndices atoms).map (fun t => neighborCount atoms t rcut) ∧
        List.Pairwise (· < ·) (xeIndices atoms)) ∧
    ((analyze_cluster loaded rcut min_neighbors).success = false →
      (analyze_cluster loaded rcut min_neighbors).xe_neighbors = [] ∧
      (analyze_cluster loaded rcut min_neighbors).is_anomalous = true) := by
  have hpair : ∀ atoms : List Atom, List.Pairwise (· < ·) (xeIndices atoms) :=
    fun atoms => List.Pairwise.filter _ (List.pairwise_lt_range atoms.length)
  cases loaded with
  | error e => exact ⟨fun h => by simp [analyze_cluster] at h, fun _ => ⟨rfl, rfl⟩⟩
  | ok atoms =>
    by_cases h : (xeIndices atoms).length = 0
    · refine ⟨fun hs => ?_, fun _ => ?_⟩
      · simp [analyze_cluster, h] at hs
      · simp [analyze_cluster, h]
    · refine ⟨fun _ => ⟨atoms, rfl, ?_, ?_, ?_, hpair atoms⟩, fun hs => ?_⟩
      · simp [analyze_cluster, h]
      · simp only [analyze_cluster, h, if_false]
        exact Nat.one_le_iff_ne_zero.mpr h
      · simp [analyze_cluster, h]
      · simp [analyze_cluster, h] at hs

/-- C10 witness: the invariants instantiated on a concrete successful analysis
(a lone Xe atom) and on a concrete failed analysis (a load error). -/
theorem result_invariants_witness :
    (∃ atoms, (Except.ok xeOnly : Except String (List Atom)) = .ok atoms ∧
      (analyze_cluster (.ok xeOnly) 6 10).xe_neighbors.length =
        (analyze_cluster (.ok xeOnly) 6 10).n_xe ∧
      1 ≤ (analyze_cluster (.ok xeOnly) 6 10).n_xe ∧
      (analyze_cluster (.ok xeOnly) 6 10).xe_neighbors =
        (xeIndices atoms).map (fun t => neighborCount atoms t 6) ∧
      List.Pairwise (· < ·) (xeIndices atoms)) ∧
    ((analyze_cluster (.error "boom") 6 10).xe_neighbors = [] ∧
      (analyze_cluster (.error "boom") 6 10).is_anomalous = true) :=
  ⟨(result_invariants (.ok xeOnly) 6 10).1
      (by norm_num [analyze_cluster, xeOnly, xeIndices, List.range_succ]),
    (result_invariants (.error "boom") 6 10).2 rfl⟩

/-- Abstract state of the file system touched by the quarantine mover: the cluster
directories still at their original path under the base directory, the directories
under bad_seeds, and whether the bad_seeds directory itself exists.  Directory
contents are abstracted as a string blob keyed by the cluster folder name. -/
structure FS where
  clusters : List (String × String)
  badSeeds : List (String × String)
  badSeedsExists : Bool
  deriving Repr, DecidableEq

/-- The first two steps of move_anomalous_cluster, in source order:
`os.makedirs(bad_seeds_dir, exist_ok=True)` (the bad_seeds directory now exists),
then `if os.path.exists(target_path): shutil.rmtree(target_path)` (an existing
destination directory of the same name is deleted). -/
def prepareTarget (fs : FS) (name : String) : FS :=
  if (fs.badSeeds.lookup name).isSome then
    { clusters := fs.clusters, badSeeds := fs.badSeeds.filter (fun p => p.1 != name),
      badSeedsExists := true }
  else
    { clusters := fs.clusters, badSeeds := fs.badSeeds, badSeedsExists := true }

/-- `move_anomalous_cluster(cluster_file, bad_seeds_dir)` of cluster_sanity_check.py
over the abstract file system.  The path-string glue is abstracted: `name` stands
for `cluster_name = os.path.basename(os.path.dirname(cluster_file))`.  After the
makedirs and rmtree steps (`prepareTarget`), `shutil.move(source_path, target_path)`
relocates the source directory; a missing source makes it raise, which the handler
converts to a `False` return, keeping the state changes already made. -/
def move_anomalous_cluster (fs : FS) (name : String) : FS × Bool :=
  match (prepareTarget fs name).clusters.lookup name with
  | some contents =>
      ({ clusters := (prepareTarget fs name).clusters.filter (fun p => p.1 != name),
         badSeeds := (prepareTarget fs name).badSeeds ++ [(name, contents)],
         badSeedsExists := (prepareTarget fs name).badSeedsExists }, true)
  | none => (prepareTarget fs name, false)

/-- The move loop of `main`:
`for result in anomalous_results: move_anomalous_cluster(result['file'], bad_seeds_dir)`,
with per-move failures only warned about. -/
def moveAll (names : List String) (fs : FS) : FS :=
  names.foldl (fun f n => (move_anomalous_cluster f n).1) fs

/-- The quarantine block of `main`: runs only under
`if args.sort_out_anomalies == "yes"`, and then moves the folder of each result in
`[r for r in results if r['success'] and r['is_anomalous']]`, in order. -/
def quarantinePhase (sort_out_anomalies : String)
    (results : List (String × StructureResult)) (fs : FS) : FS :=
  if sort_out_anomalies = "yes" then
    moveAll ((results.filter (fun p => p.2.success && p.2.is_anomalous)).map Prod.fst) fs
  else fs

/-- Default value of the --sort_out_anomalies CLI option (parse_arguments). -/
def sort_out_anomalies_default : String := "no"

lemma lookup_filter_self (l : List (String × String)) (name : String) :
    (l.filter (fun p => p.1 != name)).lookup name = none := by
  rw [List.lookup_eq_none_iff]
  intro p hp
  have := (List.mem_filter.mp hp).2
  rw [bne_iff_ne] at this ⊢
  exact fun h => this h.symm

lemma lookup_filter_other (l : List (String × String)) (n name : String)
    (h : n ≠ name) : (l.filter (fun p => p.1 != n)).lookup name = l.lookup name := by
  induction l with
  | nil => rfl
  | cons p l ih =>
    obtain ⟨k, v⟩ := p
    by_cases hp : k = n
    · subst hp
      have hnk : (name == k) = false := beq_eq_false_iff_ne.mpr fun hh => h hh.symm
      simp [List.filter_cons, List.lookup_cons, hnk, ih]
    · by_cases hnk : name = k
      · subst hnk
        simp [List.filter_cons, bne_iff_ne, hp, List.lookup_cons]
      · have hnk2 : (name == k) = false := beq_eq_false_iff_ne.mpr hnk
        simp [List.filter_cons, bne_iff_ne, hp, List.lookup_cons, hnk2, ih]

lemma prepareTarget_clusters (fs : FS) (name : String) :
    (prepareTarget fs name).clusters = fs.clusters := by
  unfold prepareTarget
  split <;> rfl

lemma prepareTarget_exists (fs : FS) (name : String) :
    (prepareTarget fs name).badSeedsExists = true := by
  unfold prepareTarget
  split <;> rfl

lemma prepareTarget_lookup_self (fs : FS) (name : String) :
    (prepareTarget fs name).badSeeds.lookup name = none := by
  unfold prepareTarget
  by_cases hb : (fs.badSeeds.lookup name).isSome
  · rw [if_pos hb]
    exact lookup_filter_self _ _
  · rw [if_neg hb]
    exact Option.not_isSome_iff_eq_none.mp hb

lemma prepareTarget_lookup_other (fs : FS) (n name : String) (h : n ≠ name) :
    (prepareTarget fs n).badSeeds.lookup name = fs.badSeeds.lookup name := by
  unfold prepareTarget
  by_cases hb : (fs.badSeeds.lookup n).isSome
  · rw [if_pos hb]
    exact lookup_filter_other _ _ _ h
  · rw [if_neg hb]

lemma move_self (fs : FS) (name c : String) (h : fs.clusters.lookup name = some c) :
    (move_anomalous_cluster fs name).1.clusters.lookup name = none ∧
      (move_anomalous_cluster fs name).1.badSeeds.lookup name = some c ∧
      (move_anomalous_cluster fs name).1.badSeedsExists = true := by
  have hcl : (prepareTarget fs name).clusters.lookup name = some c := by
    rw [prepareTarget_clusters]
    exact h
  simp only [move_anomalous_cluster, hcl]
  refine ⟨lookup_filter_self _ _, ?_, prepareTarget_exists fs name⟩
  rw [List.lookup_append, prepareTarget_lookup_self]
  simp

lemma move_badSeedsExists (fs : FS) (n : String) :
    (move_anomalous_cluster fs n).1.badSeedsExists = true := by
  unfold move_anomalous_cluster
  cases hcl : (prepareTarget fs n).clusters.lookup n with
  | some v => exact prepareTarget_exists fs n
  | none => exact prepareTarget_exists fs n

lemma move_other (fs : FS) (n name : String) (h : n ≠ name) :
    (move_anomalous_cluster fs n).1.clusters.lookup name = fs.clusters.lookup name ∧
      (move_anomalous_cluster fs n).1.badSeeds.lookup name = fs.badSeeds.lookup name := by
  cases hcl : (prepareTarget fs n).clusters.lookup n with
  | some v =>
    simp only [move_anomalous_cluster, hcl]
    constructor
    · rw [prepareTarget_clusters]
      exact lookup_filter_other _ _ _ h
    · rw [List.lookup_append, prepareTarget_lookup_other fs n name h]
      have hk : (name == n) = false := beq_eq_false_iff_ne.mpr fun hh => h hh.symm
      have hsingle : (([(n, v)] : List (String × String)).lookup name) = none := by
        simp [List.lookup_cons, hk]
      rw [hsingle, Option.or_none]
  | none =>
    simp only [move_anomalous_cluster, hcl]
    exact ⟨by rw [prepareTarget_clusters], prepareTarget_lookup_other fs n name h⟩

lemma moveAll_not_mem (names : List String) (name : String) (hnm : name ∉ names) :
    ∀ fs : FS,
      (moveAll names fs).clusters.lookup name = fs.clusters.lookup name ∧
        (moveAll names fs).badSeeds.lookup name = fs.badSeeds.lookup name ∧
        (fs.badSeedsExists = true → (moveAll names fs).badSeedsExists = true) := by
  induction names with
  | nil => exact fun fs => ⟨rfl, rfl, fun h => h⟩
  | cons n rest ih =>
    intro fs
    have hne : n ≠ name := fun hh => hnm (hh ▸ List.mem_cons_self n rest)
    have hrest : name ∉ rest := fun hh => hnm (List.mem_cons_of_mem n hh)
    have hstep := move_other fs n name hne
    have := ih hrest ((move_anomalous_cluster fs n).1)
    refine ⟨?_, ?_, ?_⟩
    · rw [moveAll, List.foldl_cons, ← moveAll, this.1, hstep.1]
    · rw [moveAll, List.foldl_cons, ← moveAll, this.2.1, hstep.2]
    · intro _
      rw [moveAll, List.foldl_cons, ← moveAll]
      exact this.2.2 (move_badSeedsExists fs n)

lemma moveAll_moves (names : List String) (name c : String) :
    ∀ fs : FS, name ∈ names → names.Nodup → fs.clusters.lookup name = some c →
      (moveAll names fs).clusters.lookup name = none ∧
        (moveAll names fs).badSeeds.lookup name = some c ∧
        (moveAll names fs).badSeedsExists = true := by
  induction names with
  | nil => intro fs hmem; cases hmem
  | cons n rest ih =>
    intro fs hmem hnodup hsrc
    rcases List.mem_cons.mp hmem with rfl | hmem
    · have hpost := move_self fs name c hsrc
      have hrest : name ∉ rest := (List.nodup_cons.mp hnodup).1
      have hpres := moveAll_not_mem rest name hrest ((move_anomalous_cluster fs name).1)
      rw [moveAll, List.foldl_cons, ← moveAll]
      exact ⟨hpres.1.trans hpost.1, hpres.2.1.trans hpost.2.1, hpres.2.2 hpost.2.2⟩
    · have hne : n ≠ name := fun hh => (List.nodup_cons.mp hnodup).1 (hh ▸ hmem)
      have hstep := move_other fs n name hne
      rw [moveAll, List.foldl_cons, ← moveAll]
      exact ih ((move_anomalous_cluster fs n).1) hmem (List.nodup_cons.mp hnodup).2
        (hstep.1.trans hsrc)

/-- A concrete base directory holding one cluster folder and no bad_seeds yet. -/
def fsDemo : FS :=
  { clusters := [("cluster_1", "coord")], badSeeds := [], badSeedsExists := false }

/-- A concrete successfully analyzed result flagged anomalous (one Xe atom with a
single neighbor, below the default minimum of 10). -/
def anomalousResult : StructureResult :=
  { success := true, error := none, n_atoms := 2, n_xe := 1,
    xe_neighbors := [1], is_anomalous := true }

/-- C7 counterexample: with quarantine enabled, a structure whose analysis failed —
which is flagged anomalous — is NOT moved: `main` selects only results with
`r['success'] and r['is_anomalous']`, so after the quarantine phase the failed
structure's folder still exists at the original path and is absent from bad_seeds,
contrary to the claim that every anomalous StructureResult's directory is moved. -/
theorem quarantine_skips_failed_anomalous :
    (analyze_cluster (.error "read failure") 6 10).is_anomalous = true ∧
      (quarantinePhase "yes"
          [("cluster_1", analyze_cluster (.error "read failure") 6 10)]
          fsDemo).clusters.lookup "cluster_1" = some "coord" ∧
      (quarantinePhase "yes"
          [("cluster_1", analyze_cluster (.error "read failure") 6 10)]
          fsDemo).badSeeds.lookup "cluster_1" = none :=
  ⟨rfl, rfl, rfl⟩

/-- C7 (amended): in directory mode with quarantine enabled, for every successfully
analyzed StructureResult flagged anomalous whose folder is present at the original
path, the folder is moved into bad_seeds (created if absent): afterward it no longer
exists at the original path and exists, with its contents, under bad_seeds — even if
a directory of the same name already existed at the destination, in which case that
one was deleted first; failures of other moves (folders already missing) do not
block this move. -/
theorem quarantine_moves_successful_anomalous
    (results : List (String × StructureResult)) (fs : FS) (name c : String)
    (res : StructureResult) (hmem : (name, res) ∈ results)
    (hsucc : res.success = true) (hanom : res.is_anomalous = true)
    (hnodup : (results.map Prod.fst).Nodup)
    (hsrc : fs.clusters.lookup name = some c) :
    (quarantinePhase "yes" results fs).clusters.lookup name = none ∧
      (quarantinePhase "yes" results fs).badSeeds.lookup name = some c ∧
      (quarantinePhase "yes" results fs).badSeedsExists = true := by
  have hmem2 : (name, res) ∈ results.filter (fun p => p.2.success && p.2.is_anomalous) :=
    List.mem_filter.mpr ⟨hmem, by simp [hsucc, hanom]⟩
  have hnames : name ∈ (results.filter
      (fun p => p.2.success && p.2.is_anomalous)).map Prod.fst :=
    List.mem_map.mpr ⟨(name, res), hmem2, rfl⟩
  have hsub : List.Sublist
      ((results.filter (fun p => p.2.success && p.2.is_anomalous)).map Prod.fst)
      (results.map Prod.fst) :=
    (List.filter_sublist results).map Prod.fst
  have hnodup2 : ((results.filter
      (fun p => p.2.success && p.2.is_anomalous)).map Prod.fst).Nodup :=
    hnodup.sublist hsub
  unfold quarantinePhase
  rw [if_pos rfl]
  exact moveAll_moves _ name c fs hnames hnodup2 hsrc

/-- C7 witness: on a concrete run with one successful anomalous structure whose
folder is present, the quarantine phase removes the folder from the original path,
places it under bad_seeds, and creates bad_seeds. -/
theorem quarantine_moves_successful_anomalous_witness :
    (quarantinePhase "yes" [("cluster_1", anomalousResult)] fsDemo).clusters.lookup
        "cluster_1" = none ∧
      (quarantinePhase "yes" [("cluster_1", anomalousResult)] fsDemo).badSeeds.lookup
        "cluster_1" = some "coord" ∧
      (quarantinePhase "yes" [("cluster_1", anomalousResult)] fsDemo).badSeedsExists =
        true :=
  quarantine_moves_successful_anomalous [("cluster_1", anomalousResult)] fsDemo
    "cluster_1" "coord" anomalousResult (List.mem_singleton_self _) rfl rfl
    (List.nodup_singleton _) rfl

/-- C8: the quarantine move never executes unless the operator explicitly opts in:
the sort_out_anomalies option defaults to "no", and for every option value other
than "yes" the quarantine phase leaves the file system unchanged — nothing is moved
or deleted — regardless of how many results are flagged anomalous. -/
theorem quarantine_requires_opt_in (results : List (String × StructureResult))
    (fs : FS) :
    sort_out_anomalies_default = "no" ∧
      quarantinePhase sort_out_anomalies_default results fs = fs ∧
      ∀ s : String, s ≠ "yes" → quarantinePhase s results fs = fs := by
  refine ⟨rfl, ?_, ?_⟩
  · unfold quarantinePhase
    rw [if_neg (by decide : sort_out_anomalies_default ≠ "yes")]
  · intro s hs
    unfold quarantinePhase
    rw [if_neg hs]

/-- C8 witness: a run with an anomalous result but without the opt-in ("no", the
default) leaves the file system untouched. -/
theorem quarantine_requires_opt_in_witness :
    quarantinePhase "no" [("cluster_1", anomalousResult)] fsDemo = fsDemo :=
  (quarantine_requires_opt_in [("cluster_1", anomalousResult)] fsDemo).2.2 "no"
    (by decide)

example : neighborCount [⟨"Xe", 0, 0, 0⟩, ⟨"O", 3, 0, 0⟩] 0 3 = 1 := by
  norm_num [neighborCount, neighborIndices, isNeighbor, withinCutoff, dist2, List.range_succ]

example : neighborCount [⟨"Xe", 0, 0, 0⟩, ⟨"O", 3, 0, 0⟩] 0 2 = 0 := by
  norm_num [neighborCount, neighborIndices, isNeighbor, withinCutoff, dist2, List.range_succ]

example : neighborCount [⟨"Xe", 0, 0, 0⟩, ⟨"O", 0, 0, 0⟩] 0 0 = 1 := by
  norm_num [neighborCount, neighborIndices, isNeighbor, withinCutoff, dist2, List.range_succ]
